import Mathlib

/-!
Shallow embedding of the conversion pipeline controller of
`src/hooks/useSheetMusicProcessor.ts` (the `useSheetMusicProcessor` React hook).

The hook keeps its observable state in seven `useState` cells
(status, progress, currentStep, result, error, estimatedTime, detectedElements).
We model the observable state as `HookState` and the body of `processFile` as the
list of setter calls it performs, in program order; folding that list over a
starting state yields the terminal state, and the scan yields the trace of
states the caller can observe (every `await` is a suspension point, and each
setter produces a new observable state).

All sources of nondeterminism of the run (the `Math.random()` draws, the clock)
are gathered in `RunEnv` and passed in explicitly, so the run itself is a pure
function.

A central point of fidelity: `processFile` is produced by
`useCallback(async (file, options) => ..., [])` — an empty dependency array —
so the closure is memoized at the first render and the identifier
`detectedElements` inside it forever denotes the state value of that first
render, namely `{}`. The setter `setDetectedElements` (whose functional updates
do see the latest state) feeds the observable state cell, which we model as the
`detectedElements` field of `HookState`; the reads of `detectedElements` inside
the closure (track derivation and the final result) are modelled by the
explicit `closureElems` parameter, instantiated with the empty record in
`runUpdates`, exactly as the JavaScript semantics dictates.
-/

namespace SheetMusic

set_option maxHeartbeats 1000000 in
/-- The `ProcessingStatus` union type of the hook. -/
inductive Status where
  | idle
  | uploading
  | analyzing
  | processing
  | generating
  | success
  | error
  | partial_success
  deriving DecidableEq, Repr

/-- The `processingMode` union of `ProcessingOptions`. -/
inductive ProcessingMode where
  | standard
  | enhanced
  | manual_assist
  deriving DecidableEq, Repr

/-- The `ProcessingOptions` record of the hook. -/
structure ProcessingOptions where
  preferredTempo : Option Nat
  preferredKey : Option String
  selectedPages : Option (List Nat)
  processingMode : ProcessingMode
  includeChords : Bool
  includeLyrics : Bool
  separateTracks : Bool
  deriving DecidableEq, Repr

/-- The `Partial<DetectedElements>` record: every field optional, absent fields are `none`.
The hook's `detectedElements` state cell has exactly this type. -/
structure PartialElements where
  timeSignature : Option String
  keySignature : Option String
  tempo : Option Nat
  tempoMarking : Option String
  clefs : Option (List String)
  noteCount : Option Nat
  measures : Option Nat
  dynamics : Option (List String)
  articulations : Option (List String)
  deriving DecidableEq, Repr

/-- The empty record `{}` used to initialize `detectedElements`. -/
def emptyElements : PartialElements :=
  ⟨none, none, none, none, none, none, none, none, none⟩

/-- The `TrackInfo` record of the hook. -/
structure TrackInfo where
  name : String
  instrument : String
  clef : String
  noteCount : Nat
  deriving DecidableEq, Repr

/-- The `MidiMetadata` record of the hook. -/
structure MidiMetadata where
  title : String
  composer : String
  copyright : String
  processingDate : String
  software : String
  tracks : List TrackInfo
  deriving DecidableEq, Repr

/-- The `ProcessingError` record of the hook. The `type` field is one of the string
literals of the TypeScript union. -/
structure ProcessingError where
  type : String
  message : String
  suggestions : List String
  confidence : ℚ
  deriving DecidableEq, Repr

/-- The `ProcessingResult` record of the hook. The `detectedElements` field is declared
`DetectedElements` in TypeScript but receives `detectedElements as
DetectedElements`, a compile-time cast that does nothing at runtime, so the
runtime value is the partial record; we model the runtime truth. -/
structure ProcessingResult where
  fileName : String
  midiData : List Nat
  title : String
  composer : String
  processingDate : String
  confidence : ℚ
  detectedElements : PartialElements
  metadata : MidiMetadata
  deriving DecidableEq, Repr

/-- One entry of the `baseSteps` array. -/
structure BaseStep where
  step : String
  duration : Nat
  progress : Nat
  deriving DecidableEq, Repr

/-- The `baseSteps` array, verbatim. -/
def baseSteps : List BaseStep :=
  [ ⟨"Uploading and validating file...", 800, 5⟩,
    ⟨"Preprocessing and image enhancement...", 1200, 15⟩,
    ⟨"Detecting staff lines and layout...", 1500, 25⟩,
    ⟨"Identifying clefs and key signatures...", 1000, 35⟩,
    ⟨"Recognizing note heads and stems...", 2000, 55⟩,
    ⟨"Analyzing rhythmic patterns...", 1500, 70⟩,
    ⟨"Processing dynamics and articulations...", 1000, 80⟩,
    ⟨"Extracting tempo and expression marks...", 800, 85⟩,
    ⟨"Generating MIDI structure...", 1200, 95⟩,
    ⟨"Finalizing and optimizing...", 500, 100⟩ ]

/-- All nondeterminism of one `processFile` run: the `Math.random()` draws and
the wall clock, passed in explicitly so the run is a pure function.
`noteRand` stands for `Math.floor(Math.random() * 200)`, `measureRand` for
`Math.floor(Math.random() * 32)`, `shouldFail` for `Math.random() < 0.1`,
`shouldPartialFail` for `Math.random() < 0.15`, `errIndex` for
`Math.floor(Math.random() * errorTypes.length)`, `errConfRand` for the raw
`Math.random()` draw of the error confidence, `midiRand` for the 100 random
filler bytes of the mock MIDI data, `now` for `new Date().toISOString()` and
`year` for `new Date().getFullYear()`. -/
structure RunEnv where
  noteRand : Fin 200
  measureRand : Fin 32
  shouldFail : Bool
  shouldPartialFail : Bool
  errIndex : Fin 3
  errConfRand : ℚ
  midiRand : List Nat
  now : String
  year : Nat

/-- The observable state of the hook: one field per `useState` cell. -/
structure HookState where
  status : Status
  progress : Nat
  currentStep : String
  result : Option ProcessingResult
  error : Option ProcessingError
  estimatedTime : ℚ
  detectedElements : PartialElements

/-- State of the hook at mount: all cells at their `useState` initializers. -/
def initialHookState : HookState :=
  ⟨.idle, 0, "", none, none, 0, emptyElements⟩

def setStatus (v : Status) (s : HookState) : HookState := { s with status := v }

def setProgress (v : Nat) (s : HookState) : HookState := { s with progress := v }

def setCurrentStep (v : String) (s : HookState) : HookState := { s with currentStep := v }

def setResult (v : Option ProcessingResult) (s : HookState) : HookState := { s with result := v }

def setError (v : Option ProcessingError) (s : HookState) : HookState := { s with error := v }

def setEstimatedTime (v : ℚ) (s : HookState) : HookState := { s with estimatedTime := v }

/-- The setter `setDetectedElements` with a functional update: React applies the function
to the latest state of the cell. -/
def setDetectedElements (f : PartialElements → PartialElements) (s : HookState) : HookState :=
  { s with detectedElements := f s.detectedElements }

/-- The `timeMultiplier` ternary chain:
`mode === 'enhanced' ? 1.5 : mode === 'manual_assist' ? 2 : 1`. -/
def timeMultiplier : ProcessingMode → ℚ
  | .enhanced => 3 / 2
  | .manual_assist => 2
  | .standard => 1

/-- The total `totalTime = baseSteps.reduce((sum, step) => sum + step.duration, 0) * timeMultiplier`. -/
def totalTime (m : ProcessingMode) : ℚ :=
  ((baseSteps.map (fun s => (s.duration : ℚ))).sum) * timeMultiplier m

/-- The expression `options.preferredTempo || 120`: JavaScript `||` takes the right operand
when the left is absent (`undefined`) or `0`. -/
def tempoOf (opts : ProcessingOptions) : Nat :=
  match opts.preferredTempo with
  | some t => if t = 0 then 120 else t
  | none => 120

/-- The `String.includes` test: `pat` occurs as a substring of `s`. -/
def strIncludes (s pat : String) : Bool := (s.splitOn pat).length > 1

/-- The title/composer/confidence triple of the filename pattern matching. -/
structure Recognition where
  title : String
  composer : String
  confidence : ℚ
  deriving DecidableEq, Repr

/-- The `if (fileName.includes(...))` chain of `processFile`, applied to the
already-lowercased filename. -/
def recognize (fileName : String) : Recognition :=
  if strIncludes fileName "amore" || strIncludes fileName "piccioni" then
    ⟨"Amore Mio Aiutami", "Piero Piccioni", 95 / 100⟩
  else if strIncludes fileName "mozart" then
    ⟨"Piano Sonata", "Wolfgang Amadeus Mozart", 92 / 100⟩
  else if strIncludes fileName "bach" then
    ⟨"Two-Part Invention", "Johann Sebastian Bach", 90 / 100⟩
  else if strIncludes fileName "chopin" then
    ⟨"Nocturne", "Frédéric Chopin", 88 / 100⟩
  else if strIncludes fileName "beethoven" then
    ⟨"Piano Sonata", "Ludwig van Beethoven", 91 / 100⟩
  else
    ⟨"Sheet Music", "Unknown", 85 / 100⟩

/-- One entry of the `errorTypes` array (the thrown object before the
confidence is attached). -/
structure ErrorCase where
  type : String
  message : String
  suggestions : List String
  deriving DecidableEq, Repr

/-- The `errorTypes` array of the failure branch, verbatim. -/
def errorTypes : List ErrorCase :=
  [ ⟨"blur", "Image resolution too low for accurate note recognition",
      [ "Try scanning at 300 DPI or higher",
        "Ensure good lighting when photographing",
        "Use a flatbed scanner for best results" ]⟩,
    ⟨"notation", "Complex notation style not fully supported",
      [ "Try using standard notation without extensive markings",
        "Consider using enhanced processing mode",
        "Manual assistance mode may help with complex scores" ]⟩,
    ⟨"handwritten", "Handwritten notation detected - accuracy significantly reduced",
      [ "Use printed or engraved sheet music for best results",
        "Try enhanced processing mode for handwritten scores",
        "Consider manual correction of detected notes" ]⟩ ]

/-- The `ProcessingError` built on the failure path: the chosen `errorTypes`
entry with `confidence: Math.random() * 0.3 + 0.1` attached. The code throws
this object `JSON.stringify`-ed and the catch block `JSON.parse`s it back, a
round trip that reproduces the record. -/
def classifyFail (env : RunEnv) : ProcessingError :=
  let e := errorTypes.getD env.errIndex.val ⟨"", "", []⟩
  ⟨e.type, e.message, e.suggestions, env.errConfRand * (3 / 10) + 1 / 10⟩

/-- The replacement `title.toLowerCase().replace(/[^a-z0-9]/g, '-')` on a single character
(applied after lowercasing). -/
def sanitizeChar (c : Char) : Char :=
  if ('a' ≤ c && c ≤ 'z') || ('0' ≤ c && c ≤ '9') then c else '-'

/-- The derived `fileName` of the final result. -/
def midiFileName (title : String) : String :=
  String.mk (title.toLower.data.map sanitizeChar) ++ ".mid"

/-- The mock MIDI byte sequence: the fixed 14-byte header plus the 100 random
filler bytes. -/
def mockMidiData (env : RunEnv) : List Nat :=
  [0x4D, 0x54, 0x68, 0x64, 0x00, 0x00, 0x00, 0x06,
   0x00, 0x01, 0x00, 0x02, 0x01, 0xE0] ++ env.midiRand

/-- The track derivation of the finalization block. `closureElems` is the
`detectedElements` value the closure reads (the stale first-render value; on
every reachable run it is the empty record, so `noteCount || 100` is `100` and
`clefs?.includes('Bass')` is `undefined`, i.e. false).
`Math.floor(n * 0.6)` and `Math.floor(n * 0.4)` are modelled as rational
floors `n*6/10` and `n*4/10`; at the only reachable operand `n = 100` this
agrees with the IEEE-754 evaluation (`Math.floor(100 * 0.6) = 60`). -/
def tracksOf (closureElems : PartialElements) : List TrackInfo :=
  let nc : Nat :=
    match closureElems.noteCount with
    | some n => if n = 0 then 100 else n
    | none => 100
  let treble : TrackInfo := ⟨"Treble Clef", "Piano", "Treble", nc * 6 / 10⟩
  let hasBass : Bool :=
    match closureElems.clefs with
    | some cs => cs.contains "Bass"
    | none => false
  if hasBass then [treble, ⟨"Bass Clef", "Piano", "Bass", nc * 4 / 10⟩] else [treble]

/-- The `metadata` object of the finalization block. -/
def mkMetadata (env : RunEnv) (r : Recognition) (tracks : List TrackInfo) : MidiMetadata :=
  ⟨r.title, r.composer,
   "© " ++ toString env.year ++ " - Processed by Sheet2MIDI",
   env.now, "Sheet2MIDI v2.0", tracks⟩

/-- The `finalResult` object. `file` is the uploaded file's name; the code
lowercases it before pattern matching. `detectedElements` receives the
closure's (stale) record. -/
def finalResultOf (file : String) (env : RunEnv) (closureElems : PartialElements) :
    ProcessingResult :=
  let r := recognize file.toLower
  ⟨midiFileName r.title, mockMidiData env, r.title, r.composer, env.now,
   r.confidence, closureElems, mkMetadata env r (tracksOf closureElems)⟩

/-- The five synchronous setter calls at the top of `processFile` plus the
`setEstimatedTime(totalTime)` call, in program order. -/
def initUpdates (opts : ProcessingOptions) : List (HookState → HookState) :=
  [ setStatus .uploading, setProgress 0, setError none, setResult none,
    setDetectedElements (fun _ => emptyElements),
    setEstimatedTime (totalTime opts.processingMode) ]

/-- The status transition performed right before stage `i` starts:
`uploading` before stage 0, `analyzing` before the `i = 1..3` loop,
`processing` before `i = 4..7`, `generating` before `i = 8..9`. -/
def phaseStatusAt (i : Nat) : List (HookState → HookState) :=
  if i = 0 then [setStatus .uploading]
  else if i = 1 then [setStatus .analyzing]
  else if i = 4 then [setStatus .processing]
  else if i = 8 then [setStatus .generating]
  else []

/-- The call `setCurrentStep(baseSteps[i].step)`: performed for every loop stage
(`i ≥ 1`); the upload stage sets no step label. -/
def stepLabelAt (i : Nat) : List (HookState → HookState) :=
  if i = 0 then [] else [setCurrentStep ((baseSteps.getD i ⟨"", 0, 0⟩).step)]

/-- The element-detection merge performed after stage `i`'s progress update
(the `if (i === k)` blocks inside the loops). -/
def mergeAt (opts : ProcessingOptions) (env : RunEnv) (i : Nat) :
    List (HookState → HookState) :=
  if i = 2 then
    [setDetectedElements (fun p =>
      { p with timeSignature := some "4/4", clefs := some ["Treble", "Bass"] })]
  else if i = 3 then
    [setDetectedElements (fun p =>
      { p with keySignature := some "C Major", tempo := some (tempoOf opts) })]
  else if i = 5 then
    [setDetectedElements (fun p =>
      { p with noteCount := some (env.noteRand.val + 50),
               measures := some (env.measureRand.val + 16) })]
  else if i = 6 then
    [setDetectedElements (fun p =>
      { p with dynamics := some ["p", "mf", "f"],
               articulations := some ["staccato", "legato"] })]
  else if i = 7 then
    [setDetectedElements (fun p => { p with tempoMarking := some "Moderato" })]
  else []

/-- All setter calls belonging to stage `i`, in program order: the phase
status change (when stage `i` opens a phase), the step label, the progress
update to `baseSteps[i].progress`, and the element merge when present. -/
def stageEvents (opts : ProcessingOptions) (env : RunEnv) (i : Nat) :
    List (HookState → HookState) :=
  phaseStatusAt i ++ stepLabelAt i ++
    [setProgress ((baseSteps.getD i ⟨"", 0, 0⟩).progress)] ++ mergeAt opts env i

/-- The setter calls of stages `0..k`, in program order. -/
def stagesThrough (opts : ProcessingOptions) (env : RunEnv) : Nat → List (HookState → HookState)
  | 0 => stageEvents opts env 0
  | k + 1 => stagesThrough opts env k ++ stageEvents opts env (k + 1)

/-- The setter calls after all stages completed: the failure check
(`if (shouldFail) throw ...` caught by the catch block, which sets the error
and then the `error` status) and otherwise the finalization
(`partial_success` with confidence overridden to 0.65, or `success`, followed
by `setResult`). -/
def finalUpdates (file : String) (env : RunEnv) (closureElems : PartialElements) :
    List (HookState → HookState) :=
  if env.shouldFail then
    [setError (some (classifyFail env)), setStatus .error]
  else
    let fr := finalResultOf file env closureElems
    if env.shouldPartialFail then
      [setStatus .partial_success, setResult (some { fr with confidence := 65 / 100 })]
    else
      [setStatus .success, setResult (some fr)]

/-- The whole setter-call sequence of one `processFile(file, options)` run,
parametric in the `detectedElements` value captured by the closure. -/
def runUpdatesWith (file : String) (opts : ProcessingOptions) (env : RunEnv)
    (closureElems : PartialElements) : List (HookState → HookState) :=
  initUpdates opts ++ stagesThrough opts env 9 ++ finalUpdates file env closureElems

/-- The setter-call sequence of the actual hook: `processFile` comes from
`useCallback` with an empty dependency array, so the memoized closure captures
the first render's `detectedElements`, which is `{}`. -/
def runUpdates (file : String) (opts : ProcessingOptions) (env : RunEnv) :
    List (HookState → HookState) :=
  runUpdatesWith file opts env emptyElements

/-- Apply a setter-call sequence to a state. -/
def applyUpdates (us : List (HookState → HookState)) (s : HookState) : HookState :=
  us.foldl (fun t f => f t) s

/-- The successive states after each setter call. -/
def stateTrace : List (HookState → HookState) → HookState → List HookState
  | [], _ => []
  | f :: fs, s => f s :: stateTrace fs (f s)

/-- Everything the caller can observe during one run started from the mounted
hook: the initial state followed by the state after each setter call. -/
def runTrace (file : String) (opts : ProcessingOptions) (env : RunEnv) : List HookState :=
  initialHookState :: stateTrace (runUpdates file opts env) initialHookState

/-- The terminal state of one run started from the mounted hook. -/
def finalState (file : String) (opts : ProcessingOptions) (env : RunEnv) : HookState :=
  applyUpdates (runUpdates file opts env) initialHookState

/-- The observable state at the boundary of stage `k` (all setter calls of
stages `0..k` applied, none of the later ones). -/
def stateAfterStage (opts : ProcessingOptions) (env : RunEnv) (k : Nat) : HookState :=
  applyUpdates (initUpdates opts ++ stagesThrough opts env k) initialHookState

/-- The published remaining-time estimate the caller reads at the boundary of
stage `k`: the `estimatedTime` cell at that point. -/
def estimateAtStage (opts : ProcessingOptions) (env : RunEnv) (k : Nat) : ℚ :=
  (stateAfterStage opts env k).estimatedTime

/-- The published estimate right after the job-start initialization
(the `setEstimatedTime(totalTime)` call). -/
def estimateAtStart (opts : ProcessingOptions) : ℚ :=
  (applyUpdates (initUpdates opts) initialHookState).estimatedTime

/-- The confidence of the emitted result (0 when no result was emitted). -/
def resultConfidence (file : String) (opts : ProcessingOptions) (env : RunEnv) : ℚ :=
  ((finalState file opts env).result.map (fun r => r.confidence)).getD 0

/-- The claim's reading of the echoed tempo: `options.preferredTempo` whenever
that option is provided and positive, `120` otherwise. Stated from the claim's
words, to be compared with the code's `preferredTempo || 120`. -/
def tempoSpec (opts : ProcessingOptions) : Nat :=
  match opts.preferredTempo with
  | some t => if 0 < t then t else 120
  | none => 120

/-- Default options: standard mode, no tempo/key/pages preferences. -/
def opts0 : ProcessingOptions := ⟨none, none, none, .standard, false, false, false⟩

/-- Options with a preferred tempo of 140 bpm. -/
def opts140 : ProcessingOptions := ⟨some 140, none, none, .standard, false, false, false⟩

/-- A fully successful draw: no failure, no partial failure, smallest random
note and measure counts. -/
def env0 : RunEnv := ⟨0, 0, false, false, 0, 0, [], "2026-02-03T04:05:06.000Z", 2026⟩

/-- A draw in which the failure check fires with the first (`blur`) error case. -/
def envFail : RunEnv := ⟨0, 0, true, false, 0, 0, [], "2026-02-03T04:05:06.000Z", 2026⟩

/-- A draw in which the partial-failure check fires. -/
def envPartial : RunEnv := ⟨0, 0, false, true, 0, 0, [], "2026-02-03T04:05:06.000Z", 2026⟩

/-- A mid-job observable state: the job is in the `analyzing` phase after
stage 2 (progress 25, time signature and clefs already merged). -/
def activeState : HookState :=
  ⟨.analyzing, 25, "Detecting staff lines and layout...", none, none, 11500,
   ⟨some "4/4", none, none, none, some ["Treble", "Bass"], none, none, none, none⟩⟩

/-- The code's `preferredTempo || 120` coincides with the claim's
"`preferredTempo` when provided and positive, 120 otherwise": JavaScript `||`
falls through exactly on `undefined` and `0`. -/
theorem tempoOf_eq_tempoSpec (opts : ProcessingOptions) : tempoOf opts = tempoSpec opts := by
  unfold tempoOf tempoSpec
  cases opts.preferredTempo with
  | none => rfl
  | some t => cases t <;> simp

/-- The confidence attached by the filename recognition chain is one of
0.95, 0.92, 0.90, 0.88, 0.91, 0.85, hence lies in the unit interval. -/
theorem recognize_confidence_bounds (s : String) :
    0 ≤ (recognize s).confidence ∧ (recognize s).confidence ≤ 1 := by
  unfold recognize
  split_ifs <;> norm_num

/-- C1: the claim says the emitted `metadata.tracks` is derived from the
accumulated `detectedElements` — a Treble track of `floor(noteCount * 0.6)`
notes plus a Bass track of `floor(noteCount * 0.4)` notes exactly when the
accumulated clefs contain "Bass" (hence at least 2 tracks here). The code
violates this: `processFile` is memoized by `useCallback` with an empty
dependency array, so the finalization reads the first render's
`detectedElements`, which is `{}`. On the concrete successful run below the
accumulated elements have clefs `["Treble", "Bass"]` and noteCount 50, yet the
emitted metadata holds exactly one track, a Treble track of 60 = floor(100*0.6)
notes (the `|| 100` default), not floor(50*0.6) = 30, and no Bass track. -/
theorem C1_tracks_from_stale_closure :
    (finalState "song.png" opts0 env0).status = Status.success ∧
    (stateAfterStage opts0 env0 9).detectedElements.clefs = some ["Treble", "Bass"] ∧
    (stateAfterStage opts0 env0 9).detectedElements.noteCount = some 50 ∧
    ((finalState "song.png" opts0 env0).result.map (fun r => r.metadata.tracks)) =
      some [⟨"Treble Clef", "Piano", "Treble", 60⟩] :=
  ⟨rfl, rfl, rfl, rfl⟩

/-- C2: the claim says the emitted `ProcessingResult` carries the complete
accumulated `detectedElements` with every stage-published field. The code
violates this: because of the stale `useCallback` closure the result's
`detectedElements` is the first render's `{}` — every field absent — while the
hook's state cell holds the full nine-field record the stages published. -/
theorem C2_result_elements_empty :
    (finalState "song.png" opts0 env0).status = Status.success ∧
    (stateAfterStage opts0 env0 9).detectedElements =
      ⟨some "4/4", some "C Major", some 120, some "Moderato", some ["Treble", "Bass"],
       some 50, some 16, some ["p", "mf", "f"], some ["staccato", "legato"]⟩ ∧
    ((finalState "song.png" opts0 env0).result.map (fun r => r.detectedElements)) =
      some emptyElements :=
  ⟨rfl, rfl, rfl⟩


/-- Characterization of the terminal state on the fully successful draw
(`shouldFail = false`, `shouldPartialFail = false`): status `success`, progress
100, the final step label, the final result (derived with the stale closure
record), no error, the start-time estimate, and the accumulated elements. -/
theorem finalState_success_eq (file : String) (opts : ProcessingOptions) (nr : Fin 200)
    (mr : Fin 32) (ei : Fin 3) (ec : ℚ) (mb : List Nat) (now : String) (yr : Nat) :
    finalState file opts ⟨nr, mr, false, false, ei, ec, mb, now, yr⟩ =
      ⟨.success, 100, "Finalizing and optimizing...",
       some (finalResultOf file ⟨nr, mr, false, false, ei, ec, mb, now, yr⟩ emptyElements),
       none, totalTime opts.processingMode,
       ⟨some "4/4", some "C Major", some (tempoOf opts), some "Moderato",
        some ["Treble", "Bass"], some (nr.val + 50), some (mr.val + 16),
        some ["p", "mf", "f"], some ["staccato", "legato"]⟩⟩ := rfl

set_option maxHeartbeats 1000000 in
/-- Characterization of the terminal state on the partial-failure draw
(`shouldFail = false`, `shouldPartialFail = true`): status `partial_success`
and the final result with its confidence overridden to 0.65. -/
theorem finalState_partial_eq (file : String) (opts : ProcessingOptions) (nr : Fin 200)
    (mr : Fin 32) (ei : Fin 3) (ec : ℚ) (mb : List Nat) (now : String) (yr : Nat) :
    finalState file opts ⟨nr, mr, false, true, ei, ec, mb, now, yr⟩ =
      ⟨.partial_success, 100, "Finalizing and optimizing...",
       some { finalResultOf file ⟨nr, mr, false, true, ei, ec, mb, now, yr⟩ emptyElements with
                confidence := 65 / 100 },
       none, totalTime opts.processingMode,
       ⟨some "4/4", some "C Major", some (tempoOf opts), some "Moderato",
        some ["Treble", "Bass"], some (nr.val + 50), some (mr.val + 16),
        some ["p", "mf", "f"], some ["staccato", "legato"]⟩⟩ := rfl

set_option maxHeartbeats 1000000 in
/-- Characterization of the terminal state on a failing draw
(`shouldFail = true`, either value of `shouldPartialFail`): status `error`, the
classified error, no result; progress stays at the value reached when the
failure was raised (100, since the check runs after the last stage). -/
theorem finalState_fail_eq (file : String) (opts : ProcessingOptions) (nr : Fin 200)
    (mr : Fin 32) (spf : Bool) (ei : Fin 3) (ec : ℚ) (mb : List Nat) (now : String) (yr : Nat) :
    finalState file opts ⟨nr, mr, true, spf, ei, ec, mb, now, yr⟩ =
      ⟨.error, 100, "Finalizing and optimizing...", none,
       some (classifyFail ⟨nr, mr, true, spf, ei, ec, mb, now, yr⟩),
       totalTime opts.processingMode,
       ⟨some "4/4", some "C Major", some (tempoOf opts), some "Moderato",
        some ["Treble", "Bass"], some (nr.val + 50), some (mr.val + 16),
        some ["p", "mf", "f"], some ["staccato", "legato"]⟩⟩ := rfl

/-- C3: every run terminates with exactly one of result/error set: the result
is present precisely when the error is absent, the `error` status goes with an
error and a `none` result, `success`/`partial_success` go with a result and a
`none` error, and the terminal status is always one of the three. -/
theorem C3_exactly_one_outcome (file : String) (opts : ProcessingOptions) (env : RunEnv) :
    ((finalState file opts env).result.isSome = !(finalState file opts env).error.isSome) ∧
    ((finalState file opts env).status = Status.error ↔
      (finalState file opts env).error.isSome = true) ∧
    (((finalState file opts env).status = Status.success ∨
      (finalState file opts env).status = Status.partial_success) ↔
      (finalState file opts env).result.isSome = true) ∧
    ((finalState file opts env).status = Status.success ∨
     (finalState file opts env).status = Status.partial_success ∨
     (finalState file opts env).status = Status.error) := by
  obtain ⟨nr, mr, sf, spf, ei, ec, mb, now, yr⟩ := env
  cases sf
  · cases spf
    · rw [finalState_success_eq]
      simp
    · rw [finalState_partial_eq]
      simp
  · rw [finalState_fail_eq]
    simp

/-- C4: when the failure condition is raised (it is checked after the last
stage and before finalization, so no further stage work and no finalization
runs), the run classifies the failure, ends in the `error` status with the
classified `ProcessingError`, whose suggestions are non-empty and whose kind
is `"blur"` exactly for the blur-type signal (index 0), and emits no result. -/
theorem C4_failure_classified (file : String) (opts : ProcessingOptions) (env : RunEnv)
    (h : env.shouldFail = true) :
    (finalState file opts env).status = Status.error ∧
    (finalState file opts env).error = some (classifyFail env) ∧
    (finalState file opts env).result = none ∧
    ((classifyFail env).suggestions = [] ↔ False) ∧
    ((classifyFail env).type = "blur" ↔ env.errIndex.val = 0) := by
  obtain ⟨nr, mr, sf, spf, ei, ec, mb, now, yr⟩ := env
  cases sf
  · exact Bool.noConfusion h
  · rw [finalState_fail_eq]
    refine ⟨rfl, rfl, rfl, ?_, ?_⟩
    · fin_cases ei <;> simp [classifyFail, errorTypes]
    · fin_cases ei <;> simp [classifyFail, errorTypes]

/-- C4 witness: a concrete failing draw with the blur-type signal. -/
theorem C4_witness :
    envFail.shouldFail = true ∧
    ((finalState "blurry.png" opts0 envFail).status = Status.error ∧
     (finalState "blurry.png" opts0 envFail).error = some (classifyFail envFail) ∧
     (finalState "blurry.png" opts0 envFail).result = none ∧
     ((classifyFail envFail).suggestions = [] ↔ False) ∧
     ((classifyFail envFail).type = "blur" ↔ envFail.errIndex.val = 0)) :=
  ⟨rfl, C4_failure_classified "blurry.png" opts0 envFail rfl⟩

/-- C5 counterexample: the claim says the published remaining-time estimate
strictly decreases between successive stages and is exactly 0 at the final
stage. In the code `setEstimatedTime` is called exactly once, at job start;
on a standard-mode job the published estimate at the boundary of stage 8 and
of the final stage 9 are both 11500 (the total estimate), so it is not
strictly decreasing and is not 0 at the final stage. -/
theorem C5_counterexample :
    estimateAtStage opts0 env0 8 = 11500 ∧
    estimateAtStage opts0 env0 9 = 11500 ∧
    (estimateAtStage opts0 env0 8 > estimateAtStage opts0 env0 9 ↔ False) ∧
    (estimateAtStage opts0 env0 9 = 0 ↔ False) := by
  refine ⟨?_, ?_, ?_, ?_⟩ <;> norm_num [estimateAtStage, stateAfterStage, applyUpdates,
    initUpdates, stagesThrough, stageEvents, phaseStatusAt, stepLabelAt, mergeAt,
    setStatus, setProgress, setCurrentStep, setResult, setError, setEstimatedTime,
    setDetectedElements, totalTime, timeMultiplier, baseSteps, opts0, initialHookState]

/-- C5 amended: the published remaining-time estimate is constant across all
stage boundaries of a job — it always equals the total estimate published at
job start (and that total is never 0, in particular not at the final stage). -/
theorem C5_amended (opts : ProcessingOptions) (env : RunEnv) (k : Nat) (hk : k ≤ 9) :
    estimateAtStage opts env k = totalTime opts.processingMode ∧
    (totalTime opts.processingMode = 0 ↔ False) := by
  obtain ⟨pt, pk, sp, mode, ic, il, st⟩ := opts
  constructor
  · interval_cases k <;> rfl
  · cases mode <;> norm_num [totalTime, timeMultiplier, baseSteps]

/-- C5 amended witness: the final stage of a standard-mode job. -/
theorem C5_amended_witness :
    estimateAtStage opts0 env0 9 = totalTime opts0.processingMode ∧
    (totalTime opts0.processingMode = 0 ↔ False) :=
  C5_amended opts0 env0 9 (by norm_num)

/-- C6: the total time estimate published at job start is the sum of all stage
nominal durations (11500 ms) times the processing-mode multiplier, which is 1
for standard, 1.5 for enhanced and 2 for manual_assist. -/
theorem C6_total_estimate (opts : ProcessingOptions) :
    estimateAtStart opts =
      ((baseSteps.map (fun s => (s.duration : ℚ))).sum) * timeMultiplier opts.processingMode ∧
    ((baseSteps.map (fun s => (s.duration : ℚ))).sum) = 11500 ∧
    timeMultiplier .standard = 1 ∧
    timeMultiplier .enhanced = 3 / 2 ∧
    timeMultiplier .manual_assist = 2 :=
  ⟨rfl, by norm_num [baseSteps], rfl, rfl, rfl⟩

/-- C7: every non-failing job emits a result; its confidence is exactly 0.65
whenever the partial-failure condition fired (which is exactly when the
terminal status is `partial_success`), regardless of the confidence the
filename recognition derived, and the emitted confidence always lies in
[0, 1]. -/
theorem C7_confidence (file : String) (opts : ProcessingOptions) (env : RunEnv)
    (h : env.shouldFail = false) :
    (finalState file opts env).result.isSome = true ∧
    resultConfidence file opts env =
      (if env.shouldPartialFail = true then (65 / 100 : ℚ)
       else (recognize file.toLower).confidence) ∧
    ((finalState file opts env).status = Status.partial_success ↔
      env.shouldPartialFail = true) ∧
    0 ≤ resultConfidence file opts env ∧ resultConfidence file opts env ≤ 1 := by
  obtain ⟨nr, mr, sf, spf, ei, ec, mb, now, yr⟩ := env
  cases sf
  · cases spf
    · have hc : resultConfidence file opts ⟨nr, mr, false, false, ei, ec, mb, now, yr⟩ =
          (recognize file.toLower).confidence := by
        unfold resultConfidence
        rw [finalState_success_eq]
        rfl
      refine ⟨?_, ?_, ?_, ?_, ?_⟩
      · rw [finalState_success_eq]
        rfl
      · rw [hc]
        norm_num
      · rw [finalState_success_eq]
        simp
      · rw [hc]
        exact (recognize_confidence_bounds file.toLower).1
      · rw [hc]
        exact (recognize_confidence_bounds file.toLower).2
    · have hc : resultConfidence file opts ⟨nr, mr, false, true, ei, ec, mb, now, yr⟩ =
          65 / 100 := by
        unfold resultConfidence
        rw [finalState_partial_eq]
        rfl
      refine ⟨?_, ?_, ?_, ?_, ?_⟩
      · rw [finalState_partial_eq]
        rfl
      · rw [hc]
        norm_num
      · rw [finalState_partial_eq]
        simp
      · rw [hc]
        norm_num
      · rw [hc]
        norm_num
  · exact Bool.noConfusion h

/-- C7 witness: a partial-success draw on a recognized filename — the derived
confidence would be 0.92, the emitted confidence is 0.65. -/
theorem C7_witness :
    envPartial.shouldFail = false ∧
    ((finalState "mozart.pdf" opts0 envPartial).result.isSome = true ∧
     resultConfidence "mozart.pdf" opts0 envPartial =
       (if envPartial.shouldPartialFail = true then (65 / 100 : ℚ)
        else (recognize "mozart.pdf".toLower).confidence) ∧
     ((finalState "mozart.pdf" opts0 envPartial).status = Status.partial_success ↔
       envPartial.shouldPartialFail = true) ∧
     0 ≤ resultConfidence "mozart.pdf" opts0 envPartial ∧
     resultConfidence "mozart.pdf" opts0 envPartial ≤ 1) :=
  ⟨rfl, C7_confidence "mozart.pdf" opts0 envPartial rfl⟩

set_option maxHeartbeats 2000000 in
/-- C8: the published progress is non-decreasing along the whole observable
trace of every run; the terminal progress is 100, and it equals the progress
held at the moment the failure check runs (third conjunct — the failure, when
raised, is raised after the last stage set progress to 100, so on the error
path the job also ends at the value reached when the failing check aborted
it). -/
theorem C8_progress_monotone (file : String) (opts : ProcessingOptions) (env : RunEnv) :
    List.Chain' (· ≤ ·) ((runTrace file opts env).map (fun s => s.progress)) ∧
    (finalState file opts env).progress = 100 ∧
    (stateAfterStage opts env 9).progress = 100 := by
  obtain ⟨nr, mr, sf, spf, ei, ec, mb, now, yr⟩ := env
  refine ⟨?_, ?_, ?_⟩
  · have hmap : (runTrace file opts ⟨nr, mr, sf, spf, ei, ec, mb, now, yr⟩).map
        (fun s => s.progress) =
        [0, 0, 0, 0, 0, 0, 0, 0, 5, 5, 5, 15, 15, 25, 25, 25, 35, 35, 35, 35, 55, 55,
         70, 70, 70, 80, 80, 80, 85, 85, 85, 85, 95, 95, 100, 100, 100] := by
      cases sf <;> cases spf <;> rfl
    rw [hmap]
    simp [List.chain'_cons]
  · cases sf
    · cases spf
      · rw [finalState_success_eq]
      · rw [finalState_partial_eq]
    · rw [finalState_fail_eq]
  · rfl

/-- C9 counterexample: the claim says a submit made while a job is active and
non-terminal is rejected fast, starting no new run and leaving the active
job's state untouched. The code has no such guard: from a mid-job `analyzing`
state with progress 25, calling `processFile` immediately reinitializes the
observable state (status `uploading`, progress 0, elements cleared) and runs a
complete new job to a terminal state. -/
theorem C9_counterexample :
    activeState.status = Status.analyzing ∧ activeState.progress = 25 ∧
    (applyUpdates (initUpdates opts0) activeState).status = Status.uploading ∧
    (applyUpdates (initUpdates opts0) activeState).progress = 0 ∧
    (applyUpdates (initUpdates opts0) activeState).detectedElements = emptyElements ∧
    (applyUpdates (runUpdates "song.png" opts0 env0) activeState).status = Status.success ∧
    (applyUpdates (runUpdates "song.png" opts0 env0) activeState).result.isSome = true :=
  ⟨rfl, rfl, rfl, rfl, rfl, rfl, rfl⟩

/-- C9 amended: a submit call is never rejected — whatever the current state
(active or not), `processFile` unconditionally reinitializes the job state
(status `uploading`, progress 0, result and error cleared, elements cleared,
estimate republished) and proceeds with a new run. -/
theorem C9_amended (s : HookState) (opts : ProcessingOptions) :
    applyUpdates (initUpdates opts) s =
      ⟨.uploading, 0, s.currentStep, none, none, totalTime opts.processingMode,
       emptyElements⟩ := rfl

set_option maxHeartbeats 2000000 in
/-- C10: from the third analysis stage on, every observable snapshot of the
accumulated elements carries `tempo = preferredTempo` when that option is
provided and positive, and `tempo = 120` otherwise — the option is echoed as
the detected tempo, not recognized from the document. -/
theorem C10_tempo_echoed (opts : ProcessingOptions) (env : RunEnv) (k : Nat)
    (h3 : 3 ≤ k) (h9 : k ≤ 9) :
    (stateAfterStage opts env k).detectedElements.tempo = some (tempoSpec opts) := by
  interval_cases k <;> exact congrArg some (tempoOf_eq_tempoSpec opts)

/-- C10 witness: with `preferredTempo = 140` the snapshot at stage 3 reports
tempo 140; with no preference the snapshot at stage 9 reports 120. -/
theorem C10_witness :
    (stateAfterStage opts140 env0 3).detectedElements.tempo = some 140 ∧
    (stateAfterStage opts0 env0 9).detectedElements.tempo = some 120 :=
  ⟨(C10_tempo_echoed opts140 env0 3 (by norm_num) (by norm_num)).trans rfl,
   (C10_tempo_echoed opts0 env0 9 (by norm_num) (by norm_num)).trans rfl⟩
